import Mathlib

/-!
Shallow embedding of `src/urh/dev/VirtualDevice.py`: the virtual-device facade
that dispatches a uniform property surface and lifecycle verbs over four
backend kinds (grc streaming engine, native driver, network virtual device,
none).  Python exceptions are modelled with `Except String`; emitted Qt
signals, logger calls and calls into the external adapters are recorded as an
explicit effect trace.  Machine floats are modelled exactly: RF parameters as
`ℚ`, complex samples as `ℂ`, magnitudes as `ℝ`.
-/

/-- Mode enumeration from `VirtualDevice.py` (receive = 1, send = 2, spectrum = 3). -/
inductive Mode where
  | receive
  | send
  | spectrum
  deriving DecidableEq

/-- Backends enumeration consumed from `urh.dev.BackendHandler`: the closed set of
backend kinds the facade dispatches on. -/
inductive Backends where
  | grc
  | native
  | network
  | none
  deriving DecidableEq

/-- Modelled from the spec: `NetworkSDRInterfacePlugin.NETWORK_SDR_NAME`, the
reserved network-virtual device name (the plugin source is outside `src/`; the
exact string value is immaterial, only its identity is used). -/
def NETWORK_SDR_NAME : String := "Network SDR"

/-- Modelled from the spec: `BackendHandler.DEVICE_NAMES`, the fixed known list
of native device identifiers (the handler source is outside `src/`). -/
def DEVICE_NAMES : List String := ["HackRF", "RTL-SDR", "RTL-TCP", "USRP", "FUNcube-Dongle"]

/-- Which concrete grc thread class was constructed (ReceiverThread /
SenderThread / SpectrumThread). -/
inductive GrcKind where
  | receiver
  | sender
  | spectrumThread
  deriving DecidableEq

/-- Which concrete native driver class was constructed. -/
inductive NativeKind where
  | hackrf
  | rtlsdr
  | rtltcp
  deriving DecidableEq

/-- Adapter state of the grc (streaming engine) backend threads, holding the
fields `VirtualDevice.py` reads and writes on them.  The thread classes
themselves are external collaborators; fields not set by the facade are
modelled from the spec with neutral initial values. -/
structure GrcDev (α : Type) where
  kind : GrcKind
  sample_rate : ℚ
  freq : ℚ
  gain : ℚ
  bandwidth : ℚ
  /-- The `is_ringbuffer` constructor flag, `none` when the constructor call for
  this thread kind passes no such flag. -/
  is_ringbuffer : Option Bool
  data : Option (List α)
  samples_per_transmission : ℕ
  max_repeats : ℕ
  current_iteration : Option ℕ
  usrp_ip : Option String
  device : String
  port : ℕ
  /-- Spectrum thread's frequency axis. -/
  x : List ℚ
  /-- Spectrum thread's magnitude axis. -/
  y : List ℝ
  /-- Modelled from the spec: what the grc adapter's own `read_errors()` reader
  would return (the thread source is outside `src/`). -/
  grc_errors : String

/-- Adapter state of a native driver device, holding the fields
`VirtualDevice.py` reads and writes on it. -/
structure NativeDev (α : Type) where
  kind : NativeKind
  bandwidth : ℚ
  frequency : ℚ
  gain : ℚ
  sample_rate : ℚ
  is_ringbuffer : Bool
  device_number : ℕ
  portnumber : ℕ
  device_ip : Option String
  samples_to_send : Option (List α)
  sending_repeats : Option ℕ
  receive_buffer : List α
  errors : List String

/-- Adapter state of the network SDR plugin, holding the fields
`VirtualDevice.py` reads and writes on it. -/
structure NetworkDev (α : Type) where
  raw_mode : Bool
  samples_to_send : Option (List α)
  receive_buffer : List α
  sending_repeats : Option ℕ
  server_port : ℕ
  client_port : ℕ

/-- The facade's owned adapter (`self.__dev`): exactly one adapter per backend
kind, or none for the dead facade. -/
inductive DevState (α : Type) where
  | grc (d : GrcDev α)
  | native (d : NativeDev α)
  | network (d : NetworkDev α)
  | nodev

/-- Facade state: `name`, `mode` and the owned adapter.  The `backend` tag of the
Python object is always consistent with the adapter's kind (both are set
together in `__init__`), so it is derived from `dev` here. -/
structure VirtualDevice (α : Type) where
  name : String
  mode : Mode
  dev : DevState α

/-- Observable effects: logger calls, Qt signals emitted by the facade, and
calls into the external adapters' lifecycle methods. -/
inductive Effect where
  | logWarning (msg : String)
  | emitStarted
  | emitStopped
  | callGrcStop (msg : String)
  | callStopRx (msg : String)
  | callStopTx (msg : String)
  | callStopTcpServer
  deriving DecidableEq

/-- Embedding of Python str.lower(): lowercase every character. -/
def strToLower (s : String) : String := ⟨s.data.map Char.toLower⟩

/-- Embedding of the Python call str.replace with a dash pattern and an empty
replacement, as used for native device name matching. -/
def strRemoveDash (s : String) : String := ⟨s.data.filter (fun c => c ≠ '-')⟩

/-- The resolved backend tag (`self.backend`). -/
def VirtualDevice.backend {α : Type} (st : VirtualDevice α) : Backends :=
  match st.dev with
  | .grc _ => .grc
  | .native _ => .native
  | .network _ => .network
  | .nodev => .none

/-- Modelled from the spec: construction of a grc `ReceiverThread` with the
arguments the facade passes (line 51); remaining thread-internal fields get
neutral initial values. -/
def mkReceiverThread {α : Type} (samp_rate freq gain bw : ℚ) (is_ringbuffer : Bool) : GrcDev α :=
  { kind := .receiver, sample_rate := samp_rate, freq := freq, gain := gain, bandwidth := bw,
    is_ringbuffer := some is_ringbuffer, data := Option.none, samples_per_transmission := 0,
    max_repeats := 1, current_iteration := some 0, usrp_ip := Option.none, device := "",
    port := 0, x := [], y := [], grc_errors := "" }

/-- Modelled from the spec: construction of a grc `SenderThread` with the
arguments the facade passes (line 54); no ringbuffer flag is passed. -/
def mkSenderThread {α : Type} (samp_rate freq gain bw : ℚ) : GrcDev α :=
  { kind := .sender, sample_rate := samp_rate, freq := freq, gain := gain, bandwidth := bw,
    is_ringbuffer := Option.none, data := Option.none, samples_per_transmission := 0,
    max_repeats := 1, current_iteration := some 0, usrp_ip := Option.none, device := "",
    port := 0, x := [], y := [], grc_errors := "" }

/-- Modelled from the spec: construction of a grc `SpectrumThread` with the
arguments the facade passes (line 58); no ringbuffer flag is passed. -/
def mkSpectrumThread {α : Type} (samp_rate freq gain bw : ℚ) : GrcDev α :=
  { kind := .spectrumThread, sample_rate := samp_rate, freq := freq, gain := gain, bandwidth := bw,
    is_ringbuffer := Option.none, data := Option.none, samples_per_transmission := 0,
    max_repeats := 1, current_iteration := some 0, usrp_ip := Option.none, device := "",
    port := 0, x := [], y := [], grc_errors := "" }

/-- Modelled from the spec: construction of a native `HackRF` adapter with the
arguments the facade passes (line 73). -/
def mkHackRF {α : Type} (bw freq gain samp_rate : ℚ) (is_ringbuffer : Bool) : NativeDev α :=
  { kind := .hackrf, bandwidth := bw, frequency := freq, gain := gain, sample_rate := samp_rate,
    is_ringbuffer := is_ringbuffer, device_number := 0, portnumber := 0, device_ip := Option.none,
    samples_to_send := Option.none, sending_repeats := Option.none, receive_buffer := [],
    errors := [] }

/-- Modelled from the spec: construction of a native `RTLSDR` adapter with the
arguments the facade passes (line 76). -/
def mkRTLSDR {α : Type} (freq gain samp_rate : ℚ) (device_number : ℕ)
    (is_ringbuffer : Bool) : NativeDev α :=
  { kind := .rtlsdr, bandwidth := 0, frequency := freq, gain := gain, sample_rate := samp_rate,
    is_ringbuffer := is_ringbuffer, device_number := device_number, portnumber := 0,
    device_ip := Option.none, samples_to_send := Option.none, sending_repeats := Option.none,
    receive_buffer := [], errors := [] }

/-- Modelled from the spec: construction of a native `RTLSDRTCP` adapter with
the arguments the facade passes (line 79). -/
def mkRTLSDRTCP {α : Type} (freq gain samp_rate : ℚ) (device_number : ℕ)
    (is_ringbuffer : Bool) : NativeDev α :=
  { kind := .rtltcp, bandwidth := 0, frequency := freq, gain := gain, sample_rate := samp_rate,
    is_ringbuffer := is_ringbuffer, device_number := device_number, portnumber := 0,
    device_ip := Option.none, samples_to_send := Option.none, sending_repeats := Option.none,
    receive_buffer := [], errors := [] }

/-- Modelled from the spec: construction of the `NetworkSDRInterfacePlugin`
with the raw-mode flag the facade passes (line 90). -/
def mkNetworkPlugin {α : Type} (raw_mode : Bool) : NetworkDev α :=
  { raw_mode := raw_mode, samples_to_send := Option.none, receive_buffer := [],
    sending_repeats := Option.none, server_port := 0, client_port := 0 }

/-- Modelled from the spec: the native adapter's `init_send_parameters` stores
the sample buffer and the repeat count and pre-computes derived transmission
parameters (the derived values live in the external driver adapter and are not
modelled; the adapter source is outside `src/`). -/
def NativeDev.init_send_parameters {α : Type} (d : NativeDev α) (samples : Option (List α))
    (repeats : Option ℕ) : NativeDev α :=
  { d with samples_to_send := samples, sending_repeats := repeats }

/-- Adapter construction for a resolved backend: the `if self.backend == ...`
chain of `__init__` (lines 49 to 96). -/
def buildDev {α : Type} (backend : Backends) (name : String) (mode : Mode)
    (bw freq gain samp_rate : ℚ) (samples_to_send : Option (List α))
    (device_ip : Option String) (sending_repeats : ℕ) (is_ringbuffer : Bool)
    (raw_mode : Bool) (portnumber : ℕ) : Except String (DevState α) :=
  match backend with
  | .grc => do
    let d : GrcDev α ←
      match mode with
      | .receive => .ok (mkReceiverThread samp_rate freq gain bw is_ringbuffer)
      | .send =>
        match samples_to_send with
        | some s =>
          .ok { (mkSenderThread samp_rate freq gain bw : GrcDev α) with
                data := some s, samples_per_transmission := s.length }
        | Option.none => .error "TypeError: object of type NoneType has no len()"
      | .spectrum => .ok (mkSpectrumThread samp_rate freq gain bw)
    .ok (.grc { d with usrp_ip := device_ip, device := name })
  | .native =>
    let lname := strToLower name
    if lname ∈ DEVICE_NAMES.map strToLower then do
      let rb := decide (mode = Mode.spectrum) || is_ringbuffer
      let d : NativeDev α ←
        if lname = "hackrf" then
          .ok (mkHackRF bw freq gain samp_rate rb)
        else if strRemoveDash lname = "rtlsdr" then
          .ok (mkRTLSDR freq gain samp_rate 0 rb)
        else if strRemoveDash lname = "rtltcp" then
          .ok (mkRTLSDRTCP freq gain samp_rate 0 rb)
        else
          .error ("Native Backend for " ++ lname ++ " not yet implemented")
      let d := { d with portnumber := portnumber, device_ip := device_ip }
      let d := if mode = Mode.send then d.init_send_parameters samples_to_send (some sending_repeats) else d
      .ok (.native d)
    else
      .error ("Unknown device name " ++ lname)
  | .network =>
    .ok (.network { mkNetworkPlugin raw_mode with samples_to_send := samples_to_send })
  | .none => .ok .nodev

/-- The facade constructor `VirtualDevice.__init__` (lines 31 to 96): resolve
the backend from the name (reserved network name first, then the registry,
falling back to the dead `none` backend with a logged warning), then construct
the matching adapter. -/
def VirtualDevice.construct {α : Type} (registry : List (String × Backends)) (name : String)
    (mode : Mode) (bw freq gain samp_rate : ℚ) (samples_to_send : Option (List α))
    (device_ip : Option String) (sending_repeats : ℕ) (is_ringbuffer : Bool)
    (raw_mode : Bool) (portnumber : ℕ) : Except String (VirtualDevice α × List Effect) :=
  if name = NETWORK_SDR_NAME then do
    let dev ← buildDev Backends.network name mode bw freq gain samp_rate samples_to_send
      device_ip sending_repeats is_ringbuffer raw_mode portnumber
    .ok ({ name := name, mode := mode, dev := dev }, [])
  else
    match List.lookup (strToLower name) registry with
    | Option.none =>
      .ok ({ name := name, mode := mode, dev := .nodev },
           [Effect.logWarning ("Invalid device name: " ++ name)])
    | some b => do
      let dev ← buildDev b name mode bw freq gain samp_rate samples_to_send
        device_ip sending_repeats is_ringbuffer raw_mode portnumber
      .ok ({ name := name, mode := mode, dev := dev }, [])

/-- Property getter `frequency` (lines 117 to 124). -/
def VirtualDevice.frequency {α : Type} (st : VirtualDevice α) : Except String ℚ :=
  match st.dev with
  | .grc d => .ok d.freq
  | .native d => .ok d.frequency
  | _ => .error "Unsupported Backend"

/-- Property setter `frequency` (lines 126 to 135): note the silent `pass` for
the network backend. -/
def VirtualDevice.frequency_set {α : Type} (st : VirtualDevice α) (value : ℚ) :
    Except String (VirtualDevice α) :=
  match st.dev with
  | .grc d => .ok { st with dev := .grc { d with freq := value } }
  | .native d => .ok { st with dev := .native { d with frequency := value } }
  | .network _ => .ok st
  | .nodev => .error "Unsupported Backend"

/-- Property getter `port` (lines 193 to 198). -/
def VirtualDevice.port {α : Type} (st : VirtualDevice α) : Except String ℕ :=
  match st.dev with
  | .grc d => .ok d.port
  | _ => .error "Port only for gnuradio socket (grc backend)"

/-- Property setter `port` (lines 200 to 205). -/
def VirtualDevice.port_set {α : Type} (st : VirtualDevice α) (value : ℕ) :
    Except String (VirtualDevice α) :=
  match st.dev with
  | .grc d => .ok { st with dev := .grc { d with port := value } }
  | _ => .error "Port only for gnuradio socket (grc backend)"

/-- Property getter `num_sending_repeats` (lines 252 to 260): outside send mode
the Python body falls through and returns `None`. -/
def VirtualDevice.num_sending_repeats {α : Type} (st : VirtualDevice α) :
    Except String (Option ℕ) :=
  if st.mode = Mode.send then
    match st.dev with
    | .grc d => .ok (some d.max_repeats)
    | .native d => .ok d.sending_repeats
    | _ => .error "Unsupported Backend"
  else
    .ok Option.none

/-- Property setter `num_sending_repeats` (lines 262 to 272): outside send mode
the whole body is skipped. -/
def VirtualDevice.num_sending_repeats_set {α : Type} (st : VirtualDevice α) (value : ℕ) :
    Except String (VirtualDevice α) :=
  if st.mode = Mode.send then
    match st.dev with
    | .grc d =>
      if value ≠ d.max_repeats then
        .ok { st with dev := .grc { d with max_repeats := value, current_iteration := some 0 } }
      else
        .ok st
    | .native d => .ok { st with dev := .native { d with sending_repeats := some value } }
    | .network d => .ok { st with dev := .network { d with sending_repeats := some value } }
    | .nodev => .error "Unsupported Backend"
  else
    .ok st

/-- Property getter `samples_to_send` (lines 153 to 160). -/
def VirtualDevice.samples_to_send {α : Type} (st : VirtualDevice α) :
    Except String (Option (List α)) :=
  match st.dev with
  | .grc d => .ok d.data
  | .native d => .ok d.samples_to_send
  | .network d => .ok d.samples_to_send
  | .nodev => .error "Unsupported Backend"

/-- Property setter `samples_to_send` (lines 162 to 171): on the native backend
the assignment re-runs `init_send_parameters` with the current
`num_sending_repeats` property value. -/
def VirtualDevice.samples_to_send_set {α : Type} (st : VirtualDevice α)
    (value : Option (List α)) : Except String (VirtualDevice α) :=
  match st.dev with
  | .grc d => .ok { st with dev := .grc { d with data := value } }
  | .native d => do
    let r ← st.num_sending_repeats
    .ok { st with dev := .native (d.init_send_parameters value r) }
  | .network d => .ok { st with dev := .network { d with samples_to_send := value } }
  | .nodev => .error "Unsupported Backend"

/-- Method `read_errors` (lines 430 to 440): the native backend joins the
queued errors with a blank line and clears the queue. -/
def VirtualDevice.read_errors {α : Type} (st : VirtualDevice α) :
    Except String (String × VirtualDevice α) :=
  match st.dev with
  | .grc d => .ok (d.grc_errors, st)
  | .native d =>
    .ok (String.intercalate "\n\n" d.errors, { st with dev := .native { d with errors := [] } })
  | .network _ => .ok ("", st)
  | .nodev => .error "Unsupported Backend"

/-- Method `stop` (lines 373 to 388): the dead `none` backend is a silent
no-op; native and network emit the stopped signal themselves. -/
def VirtualDevice.stop {α : Type} (st : VirtualDevice α) (msg : String) :
    Except String (VirtualDevice α × List Effect) :=
  match st.dev with
  | .grc _ => .ok (st, [Effect.callGrcStop msg])
  | .native _ =>
    if st.mode = Mode.send then
      .ok (st, [Effect.callStopTx msg, Effect.emitStopped])
    else
      .ok (st, [Effect.callStopRx msg, Effect.emitStopped])
  | .network _ => .ok (st, [Effect.callStopTcpServer, Effect.emitStopped])
  | .nodev => .ok (st, [])

/-- Method `stop_on_error` (lines 390 to 399): on the native backend, clear the
error queue via `read_errors`, stop both receive and transmit, emit stopped
once; unsupported elsewhere. -/
def VirtualDevice.stop_on_error {α : Type} (st : VirtualDevice α) (msg : String) :
    Except String (VirtualDevice α × List Effect) :=
  match st.dev with
  | .grc _ => .ok (st, [Effect.callGrcStop msg])
  | .native _ => do
    let (_, st') ← st.read_errors
    .ok (st', [Effect.callStopRx "Stop on error", Effect.callStopTx "Stop on error",
               Effect.emitStopped])
  | _ => .error "Unsupported Backend"

/-- Embedding of `np.fft.fftfreq(n, d)`: sample `k` of the frequency axis, as
an exact rational. -/
def fftfreq (n : ℕ) (d : ℚ) : List ℚ :=
  (List.range n).map (fun k => (if 2 * k < n then (k : ℚ) else (k : ℚ) - (n : ℚ)) / ((n : ℚ) * d))

/-- Comparator used by `argsort`: compare positions of a list by their values. -/
def argsortLe (l : List ℚ) (i j : ℕ) : Bool :=
  decide (l.getD i 0 ≤ l.getD j 0)

/-- Embedding of `np.argsort`: the positions of `l` reordered so that the
corresponding values are ascending. -/
def argsort (l : List ℚ) : List ℕ :=
  (List.range l.length).mergeSort (argsortLe l)

/-- Embedding of `np.fft.fft`: entry `k` of the discrete Fourier transform of
the buffer. -/
noncomputable def npFFT (a : List ℂ) : List ℂ :=
  (List.range a.length).map fun k =>
    ∑ m ∈ Finset.range a.length,
      a.getD m 0 * Complex.exp (-2 * Real.pi * Complex.I * (k : ℂ) * (m : ℂ) / (a.length : ℂ))

/-- Property getter `spectrum` (lines 337 to 348), for complex sample buffers:
grc returns the thread's axes; native computes the transform magnitude and the
frequency axis and reorders both by `argsort` of the frequencies.  The missing
inner else branch of the Python code makes network and dead backends return
`None` in spectrum mode. -/
noncomputable def VirtualDevice.spectrum (st : VirtualDevice ℂ) :
    Except String (Option (List ℚ × List ℝ)) :=
  if st.mode = Mode.spectrum then
    match st.dev with
    | .grc d => .ok (some (d.x, d.y))
    | .native d =>
      let w : List ℝ := (npFFT d.receive_buffer).map Complex.abs
      let freqs : List ℚ := fftfreq w.length (1 / d.sample_rate)
      let idx : List ℕ := argsort freqs
      .ok (some (idx.map (fun i => freqs.getD i 0), idx.map (fun i => w.getD i 0)))
    | _ => .ok Option.none
  else
    .error "Spectrum x only available in spectrum mode"

/-- Which ringbuffer flag, if any, a constructed adapter received. -/
def ringbufferPassed {α : Type} : DevState α → Option Bool
  | .grc d => d.is_ringbuffer
  | .native d => some d.is_ringbuffer
  | .network _ => Option.none
  | .nodev => Option.none

/-- Ringbuffer flag received by the adapter of a successful construction,
`none` if the construction failed. -/
def passedRingbufferOfResult {α : Type} (r : Except String (VirtualDevice α × List Effect)) :
    Option (Option Bool) :=
  match r with
  | .ok (st, _) => some (ringbufferPassed st.dev)
  | .error _ => Option.none

/-! Concrete example states used by witnesses and counterexamples. -/

/-- Example network adapter state over integer samples. -/
def exNetworkDev : NetworkDev ℤ :=
  { raw_mode := true, samples_to_send := Option.none, receive_buffer := [],
    sending_repeats := Option.none, server_port := 2222, client_port := 2223 }

/-- Example facade on the network backend. -/
def exNetworkSt : VirtualDevice ℤ :=
  { name := NETWORK_SDR_NAME, mode := Mode.receive, dev := DevState.network exNetworkDev }

/-- Example native adapter state with queued errors. -/
def exNativeErrDev : NativeDev ℤ :=
  { kind := .hackrf, bandwidth := 1, frequency := 433, gain := 20, sample_rate := 2,
    is_ringbuffer := false, device_number := 0, portnumber := 1234, device_ip := Option.none,
    samples_to_send := Option.none, sending_repeats := some 2, receive_buffer := [],
    errors := ["overflow", "timeout"] }

/-- Example facade on the native backend in receive mode. -/
def exNativeErrSt : VirtualDevice ℤ :=
  { name := "HackRF", mode := Mode.receive, dev := DevState.native exNativeErrDev }

/-- Example facade on the native backend in send mode. -/
def exNativeSendSt : VirtualDevice ℤ :=
  { name := "HackRF", mode := Mode.send, dev := DevState.native exNativeErrDev }

/-- Example grc sender adapter state. -/
def exGrcSendDev : GrcDev ℤ :=
  { kind := .sender, sample_rate := 2, freq := 433, gain := 20, bandwidth := 1,
    is_ringbuffer := Option.none, data := some [3, 4], samples_per_transmission := 2,
    max_repeats := 3, current_iteration := some 1, usrp_ip := Option.none, device := "USRP",
    port := 1337, x := [], y := [], grc_errors := "" }

/-- Example facade on the grc backend in send mode. -/
def exGrcSendSt : VirtualDevice ℤ :=
  { name := "USRP", mode := Mode.send, dev := DevState.grc exGrcSendDev }

/-- Example dead facade (unknown device name). -/
def exDeadSt : VirtualDevice ℤ :=
  { name := "foo123", mode := Mode.receive, dev := DevState.nodev }

/-- Example native adapter state for the spectrum claim, over complex samples. -/
def exSpectrumNative : NativeDev ℂ :=
  { kind := .hackrf, bandwidth := 1, frequency := 433, gain := 20, sample_rate := 2,
    is_ringbuffer := true, device_number := 0, portnumber := 1234, device_ip := Option.none,
    samples_to_send := Option.none, sending_repeats := some 1,
    receive_buffer := [1, Complex.I], errors := [] }

/-- Example facade on the native backend in spectrum mode. -/
def exSpectrumSt : VirtualDevice ℂ :=
  { name := "HackRF", mode := Mode.spectrum, dev := DevState.native exSpectrumNative }

/-- Example registry mapping a device to the grc backend. -/
def exGrcRegistry : List (String × Backends) := [("usrp", Backends.grc)]

/-- Example registry mapping a device to the native backend. -/
def exNativeRegistry : List (String × Backends) := [("hackrf", Backends.native)]

/-- The native adapter state produced by a hackrf spectrum-mode construction. -/
def exHackRFDev : NativeDev ℤ :=
  { (mkHackRF 1 433 20 2 true : NativeDev ℤ) with portnumber := 1234, device_ip := Option.none }

/-- The facade produced by a hackrf spectrum-mode construction. -/
def exHackRFSt : VirtualDevice ℤ :=
  { name := "HackRF", mode := Mode.spectrum, dev := DevState.native exHackRFDev }

/-- The grc adapter state produced by a usrp spectrum-mode construction: the
spectrum thread receives no ringbuffer flag. -/
def exUsrpSpectrumDev : GrcDev ℤ :=
  { (mkSpectrumThread 1 1 1 1 : GrcDev ℤ) with usrp_ip := Option.none, device := "USRP" }

/-- The facade produced by a usrp spectrum-mode construction on the grc backend. -/
def exUsrpSpectrumSt : VirtualDevice ℤ :=
  { name := "USRP", mode := Mode.spectrum, dev := DevState.grc exUsrpSpectrumDev }

/-! Helper lemmas about `fftfreq` and `argsort`. -/

theorem fftfreq_length (n : ℕ) (d : ℚ) : (fftfreq n d).length = n := by
  simp [fftfreq]

theorem map_getD_range {β : Type} (l : List β) (d : β) :
    (List.range l.length).map (fun i => l.getD i d) = l := by
  apply List.ext_getElem
  · simp
  · intro n h₁ h₂
    simp only [List.getElem_map, List.getElem_range]
    exact List.getD_eq_getElem l d h₂

theorem argsort_perm (l : List ℚ) : (argsort l).Perm (List.range l.length) :=
  List.mergeSort_perm _ _

theorem argsort_map_sorted (l : List ℚ) :
    List.Sorted (· ≤ ·) ((argsort l).map (fun i => l.getD i 0)) := by
  have htrans : ∀ a b c : ℕ, argsortLe l a b = true → argsortLe l b c = true →
      argsortLe l a c = true := by
    intro a b c hab hbc
    simp only [argsortLe, decide_eq_true_eq] at hab hbc ⊢
    exact le_trans hab hbc
  have htotal : ∀ a b : ℕ, (argsortLe l a b || argsortLe l b a) = true := by
    intro a b
    simp only [argsortLe, Bool.or_eq_true, decide_eq_true_eq]
    exact le_total _ _
  have h := @List.sorted_mergeSort ℕ (argsortLe l) htrans htotal (List.range l.length)
  rw [List.Sorted, List.pairwise_map]
  exact h.imp (fun hab => by simpa [argsortLe] using hab)

theorem argsort_map_getD_perm {β : Type} (l : List ℚ) (w : List β) (d : β)
    (hlen : l.length = w.length) : ((argsort l).map (fun i => w.getD i d)).Perm w := by
  have h := (argsort_perm l).map (fun i => w.getD i d)
  rw [hlen, map_getD_range w d] at h
  exact h

/-- C2: on a native-backend facade in spectrum mode, the `spectrum` property
returns the discrete Fourier transform magnitudes of the receive buffer and the
`fftfreq` frequency axis at the configured sample rate, both reordered by the
same ascending-frequency permutation, so the returned frequency list is sorted. -/
theorem c2_native_spectrum_sorted (st : VirtualDevice ℂ) (d : NativeDev ℂ)
    (hm : st.mode = Mode.spectrum) (hd : st.dev = DevState.native d) :
    ∃ fr : List ℚ, ∃ mag : List ℝ,
      st.spectrum = .ok (some (fr, mag)) ∧
      List.Sorted (· ≤ ·) fr ∧
      fr.Perm (fftfreq ((npFFT d.receive_buffer).map Complex.abs).length (1 / d.sample_rate)) ∧
      mag.Perm ((npFFT d.receive_buffer).map Complex.abs) := by
  obtain ⟨nm, md, dv⟩ := st
  subst hd
  subst hm
  refine ⟨(argsort (fftfreq ((npFFT d.receive_buffer).map Complex.abs).length
              (1 / d.sample_rate))).map
            (fun i => (fftfreq ((npFFT d.receive_buffer).map Complex.abs).length
              (1 / d.sample_rate)).getD i 0),
          (argsort (fftfreq ((npFFT d.receive_buffer).map Complex.abs).length
              (1 / d.sample_rate))).map
            (fun i => ((npFFT d.receive_buffer).map Complex.abs).getD i 0),
          ?_, ?_, ?_, ?_⟩
  · rfl
  · exact argsort_map_sorted _
  · exact argsort_map_getD_perm _ _ 0 rfl
  · exact argsort_map_getD_perm _ _ 0 (fftfreq_length _ _)

/-- Witness for C2 at a concrete two-sample buffer. -/
theorem c2_native_spectrum_sorted_witness :
    exSpectrumSt.mode = Mode.spectrum ∧ exSpectrumSt.dev = DevState.native exSpectrumNative ∧
    (∃ fr : List ℚ, ∃ mag : List ℝ,
      exSpectrumSt.spectrum = .ok (some (fr, mag)) ∧
      List.Sorted (· ≤ ·) fr ∧
      fr.Perm (fftfreq ((npFFT exSpectrumNative.receive_buffer).map Complex.abs).length
        (1 / exSpectrumNative.sample_rate)) ∧
      mag.Perm ((npFFT exSpectrumNative.receive_buffer).map Complex.abs)) :=
  ⟨rfl, rfl, c2_native_spectrum_sorted exSpectrumSt exSpectrumNative rfl rfl⟩

/-- C3: constructing with a device name absent from the registry (and not the
reserved network name) does not raise: it logs a diagnostic and yields a dead
facade with backend `none` and no adapter, on which `stop` is a no-op and the
`frequency` getter raises an unsupported-backend error. -/
theorem c3_unknown_device_dead_facade {α : Type} (registry : List (String × Backends))
    (name : String) (mode : Mode) (bw freq gain samp_rate : ℚ)
    (samples : Option (List α)) (ip : Option String) (rep : ℕ) (rb raw : Bool) (pn : ℕ)
    (msg : String)
    (hname : name ≠ NETWORK_SDR_NAME)
    (hmiss : List.lookup (strToLower name) registry = Option.none) :
    ∃ st : VirtualDevice α,
      VirtualDevice.construct registry name mode bw freq gain samp_rate samples ip rep rb raw pn
        = .ok (st, [Effect.logWarning ("Invalid device name: " ++ name)]) ∧
      st.backend = Backends.none ∧ st.dev = DevState.nodev ∧
      st.stop msg = .ok (st, []) ∧
      st.frequency = .error "Unsupported Backend" := by
  refine ⟨{ name := name, mode := mode, dev := DevState.nodev }, ?_, rfl, rfl, rfl, rfl⟩
  simp [VirtualDevice.construct, hname, hmiss]

/-- Witness for C3 at the unknown name "foo123" and an empty registry. -/
theorem c3_unknown_device_dead_facade_witness :
    ("foo123" ≠ NETWORK_SDR_NAME) ∧
    (List.lookup (strToLower "foo123") ([] : List (String × Backends)) = Option.none) ∧
    (∃ st : VirtualDevice ℤ,
      VirtualDevice.construct [] "foo123" Mode.receive 1 1 1 1 Option.none Option.none 1
          false true 1234
        = .ok (st, [Effect.logWarning ("Invalid device name: " ++ "foo123")]) ∧
      st.backend = Backends.none ∧ st.dev = DevState.nodev ∧
      st.stop "x" = .ok (st, []) ∧
      st.frequency = .error "Unsupported Backend") :=
  ⟨by decide, rfl,
    c3_unknown_device_dead_facade [] "foo123" Mode.receive 1 1 1 1 Option.none Option.none 1
      false true 1234 "x" (by decide) rfl⟩

/-- C4: on a native-backend facade, `read_errors` returns the queued error
strings joined with a blank-line separator and clears the queue, so an
immediate second call returns the empty string. -/
theorem c4_read_errors_destructive {α : Type} (st : VirtualDevice α) (d : NativeDev α)
    (hd : st.dev = DevState.native d) :
    st.read_errors = .ok (String.intercalate "\n\n" d.errors,
      { st with dev := DevState.native { d with errors := [] } }) ∧
    VirtualDevice.read_errors { st with dev := DevState.native { d with errors := [] } }
      = .ok ("", { st with dev := DevState.native { d with errors := [] } }) := by
  obtain ⟨nm, md, dv⟩ := st
  subst hd
  exact ⟨rfl, rfl⟩

/-- Witness for C4 at a concrete two-element error queue. -/
theorem c4_read_errors_destructive_witness :
    exNativeErrSt.read_errors = .ok (String.intercalate "\n\n" exNativeErrDev.errors,
      { exNativeErrSt with dev := DevState.native { exNativeErrDev with errors := [] } }) ∧
    VirtualDevice.read_errors
        { exNativeErrSt with dev := DevState.native { exNativeErrDev with errors := [] } }
      = .ok ("", { exNativeErrSt with
                    dev := DevState.native { exNativeErrDev with errors := [] } }) :=
  c4_read_errors_destructive exNativeErrSt exNativeErrDev rfl

/-- C5: `stop_on_error` on a native-backend facade clears the error queue,
invokes both the receive-stop and transmit-stop adapter paths regardless of the
facade's mode, and emits exactly one stopped notification; on a network-backend
facade it fails with an unsupported-backend error. -/
theorem c5_stop_on_error {α : Type} (st st₂ : VirtualDevice α) (d : NativeDev α)
    (nd : NetworkDev α) (hd : st.dev = DevState.native d)
    (h₂ : st₂.dev = DevState.network nd) (msg msg₂ : String) :
    st.stop_on_error msg = .ok ({ st with dev := DevState.native { d with errors := [] } },
      [Effect.callStopRx "Stop on error", Effect.callStopTx "Stop on error",
       Effect.emitStopped]) ∧
    ([Effect.callStopRx "Stop on error", Effect.callStopTx "Stop on error",
      Effect.emitStopped].count Effect.emitStopped = 1) ∧
    st₂.stop_on_error msg₂ = .error "Unsupported Backend" := by
  obtain ⟨nm, md, dv⟩ := st
  obtain ⟨nm₂, md₂, dv₂⟩ := st₂
  subst hd
  subst h₂
  exact ⟨rfl, by decide, rfl⟩

/-- Witness for C5 at a native facade with two queued errors and a network facade. -/
theorem c5_stop_on_error_witness :
    exNativeErrSt.stop_on_error "boom"
      = .ok ({ exNativeErrSt with dev := DevState.native { exNativeErrDev with errors := [] } },
        [Effect.callStopRx "Stop on error", Effect.callStopTx "Stop on error",
         Effect.emitStopped]) ∧
    ([Effect.callStopRx "Stop on error", Effect.callStopTx "Stop on error",
      Effect.emitStopped].count Effect.emitStopped = 1) ∧
    exNetworkSt.stop_on_error "boom2" = .error "Unsupported Backend" :=
  c5_stop_on_error exNativeErrSt exNetworkSt exNativeErrDev exNetworkDev rfl rfl "boom" "boom2"

/-- C6: on a grc-backend facade in send mode, assigning `num_sending_repeats`
with a value different from the current `max_repeats` stores it and resets
`current_iteration` to zero, while assigning the current value changes nothing. -/
theorem c6_num_sending_repeats_reset {α : Type} (st : VirtualDevice α) (d : GrcDev α)
    (v : ℕ) (hm : st.mode = Mode.send) (hd : st.dev = DevState.grc d) :
    (v ≠ d.max_repeats →
      st.num_sending_repeats_set v =
        .ok { st with dev := DevState.grc { d with max_repeats := v, current_iteration := some 0 } }) ∧
    (v = d.max_repeats → st.num_sending_repeats_set v = .ok st) := by
  obtain ⟨nm, md, dv⟩ := st
  subst hd
  subst hm
  constructor
  · intro h
    simp [VirtualDevice.num_sending_repeats_set, h]
  · intro h
    simp [VirtualDevice.num_sending_repeats_set, h]

/-- Witness for C6: changed assignment resets the iteration, equal assignment
is the identity, at a concrete sender whose `max_repeats` is 3. -/
theorem c6_num_sending_repeats_reset_witness :
    VirtualDevice.num_sending_repeats_set exGrcSendSt 5
      = .ok { exGrcSendSt with dev := DevState.grc { exGrcSendDev with max_repeats := 5, current_iteration := some 0 } } ∧
    VirtualDevice.num_sending_repeats_set exGrcSendSt 3 = .ok exGrcSendSt :=
  ⟨(c6_num_sending_repeats_reset exGrcSendSt exGrcSendDev 5 rfl rfl).1 (by decide),
   (c6_num_sending_repeats_reset exGrcSendSt exGrcSendDev 3 rfl rfl).2 (by decide)⟩

/-- C7: constructing with the reserved network-virtual device name resolves the
backend to network unconditionally, for every registry and mode. -/
theorem c7_reserved_name_network {α : Type} (registry : List (String × Backends))
    (mode : Mode) (bw freq gain samp_rate : ℚ) (samples : Option (List α))
    (ip : Option String) (rep : ℕ) (rb raw : Bool) (pn : ℕ) :
    ∃ st : VirtualDevice α, ∃ effs : List Effect,
      VirtualDevice.construct registry NETWORK_SDR_NAME mode bw freq gain samp_rate samples
        ip rep rb raw pn = .ok (st, effs) ∧
      st.backend = Backends.network ∧
      st.dev = DevState.network { (mkNetworkPlugin raw : NetworkDev α) with
                                   samples_to_send := samples } := by
  refine ⟨{ name := NETWORK_SDR_NAME, mode := mode,
            dev := DevState.network { (mkNetworkPlugin raw : NetworkDev α) with
                                       samples_to_send := samples } }, [], ?_, rfl, rfl⟩
  simp only [VirtualDevice.construct, buildDev, if_pos rfl]
  rfl

/-- C8: on every backend supporting `samples_to_send` (grc, native, network),
assigning then reading the property yields the assigned buffer back; on the
native backend the assignment goes through `init_send_parameters` with the
current `num_sending_repeats` property value rather than a bare field write. -/
theorem c8_samples_to_send_round_trip {α : Type} (st : VirtualDevice α)
    (v : Option (List α)) :
    (∀ d : GrcDev α, st.dev = DevState.grc d →
      ∃ st', st.samples_to_send_set v = .ok st' ∧ st'.samples_to_send = .ok v) ∧
    (∀ d : NativeDev α, ∀ r : Option ℕ, st.dev = DevState.native d →
      st.num_sending_repeats = .ok r →
      st.samples_to_send_set v
        = .ok { st with dev := DevState.native (d.init_send_parameters v r) } ∧
      VirtualDevice.samples_to_send
          { st with dev := DevState.native (d.init_send_parameters v r) } = .ok v) ∧
    (∀ d : NetworkDev α, st.dev = DevState.network d →
      ∃ st', st.samples_to_send_set v = .ok st' ∧ st'.samples_to_send = .ok v) := by
  obtain ⟨nm, md, dv⟩ := st
  refine ⟨?_, ?_, ?_⟩
  · rintro d rfl
    exact ⟨_, rfl, rfl⟩
  · rintro d r rfl hr
    refine ⟨?_, rfl⟩
    simp only [VirtualDevice.samples_to_send_set, hr]
    rfl
  · rintro d rfl
    exact ⟨_, rfl, rfl⟩

/-- Witness for C8 on all three supporting backends at concrete states. -/
theorem c8_samples_to_send_round_trip_witness :
    (∃ st', VirtualDevice.samples_to_send_set exGrcSendSt (some [7, 8]) = .ok st' ∧
      st'.samples_to_send = .ok (some [7, 8])) ∧
    (VirtualDevice.samples_to_send_set exNativeSendSt (some [7, 8])
      = .ok { exNativeSendSt with dev := DevState.native (exNativeErrDev.init_send_parameters (some [7, 8]) (some 2)) } ∧
     VirtualDevice.samples_to_send { exNativeSendSt with dev := DevState.native (exNativeErrDev.init_send_parameters (some [7, 8]) (some 2)) }
      = .ok (some [7, 8])) ∧
    (∃ st', VirtualDevice.samples_to_send_set exNetworkSt (some [7, 8]) = .ok st' ∧
      st'.samples_to_send = .ok (some [7, 8])) :=
  ⟨(c8_samples_to_send_round_trip exGrcSendSt (some [7, 8])).1 exGrcSendDev rfl,
   (c8_samples_to_send_round_trip exNativeSendSt (some [7, 8])).2.1 exNativeErrDev
     (some 2) rfl rfl,
   (c8_samples_to_send_round_trip exNetworkSt (some [7, 8])).2.2 exNetworkDev rfl⟩

/-- C10: on every backend, including the dead one, when the mode is not send,
reading `num_sending_repeats` returns the Python `None` value without raising
and assigning it is a silent no-op leaving the facade unchanged. -/
theorem c10_non_send_repeats_noop {α : Type} (st : VirtualDevice α) (v : ℕ)
    (hm : st.mode ≠ Mode.send) :
    st.num_sending_repeats = .ok Option.none ∧ st.num_sending_repeats_set v = .ok st := by
  constructor
  · simp [VirtualDevice.num_sending_repeats, hm]
  · simp [VirtualDevice.num_sending_repeats_set, hm]

/-- Witness for C10 at a receive-mode dead facade and a receive-mode network facade. -/
theorem c10_non_send_repeats_noop_witness :
    (exDeadSt.num_sending_repeats = .ok Option.none ∧
      exDeadSt.num_sending_repeats_set 9 = .ok exDeadSt) ∧
    (exNetworkSt.num_sending_repeats = .ok Option.none ∧
      exNetworkSt.num_sending_repeats_set 9 = .ok exNetworkSt) :=
  ⟨c10_non_send_repeats_noop exDeadSt 9 (by decide),
   c10_non_send_repeats_noop exNetworkSt 9 (by decide)⟩

/-- C1 counterexample: writing `frequency` on a network-backend facade does not
fail — the setter's network branch is `pass`, so the write silently succeeds
and leaves the facade unchanged, contradicting the claim that every
combination outside the supported table fails with a clear error. -/
theorem c1_counterexample_network_frequency_write :
    VirtualDevice.frequency_set exNetworkSt 433 = .ok exNetworkSt ∧
    ¬ ∃ e : String, VirtualDevice.frequency_set exNetworkSt 433 = Except.error e := by
  refine ⟨rfl, ?_⟩
  rintro ⟨e, h⟩
  exact Except.noConfusion h

/-- C1 amended: reading `frequency` on the network backend fails with an
unsupported-backend error, but writing it is a silent no-op returning the
facade unchanged; reading or writing `port` on any backend other than grc
fails with a clear error. -/
theorem c1_amended_unsupported_property_access {α : Type} (st : VirtualDevice α)
    (v : ℚ) (p : ℕ) :
    (∀ d : NetworkDev α, st.dev = DevState.network d →
      st.frequency = .error "Unsupported Backend" ∧ st.frequency_set v = .ok st) ∧
    (st.backend ≠ Backends.grc →
      st.port = .error "Port only for gnuradio socket (grc backend)" ∧
      st.port_set p = .error "Port only for gnuradio socket (grc backend)") := by
  obtain ⟨nm, md, dv⟩ := st
  constructor
  · rintro d rfl
    exact ⟨rfl, rfl⟩
  · intro h
    cases dv
    · exact absurd rfl h
    · exact ⟨rfl, rfl⟩
    · exact ⟨rfl, rfl⟩
    · exact ⟨rfl, rfl⟩

/-- Witness for the amended C1 at a concrete network-backend facade. -/
theorem c1_amended_unsupported_property_access_witness :
    VirtualDevice.frequency exNetworkSt = .error "Unsupported Backend" ∧
    VirtualDevice.frequency_set exNetworkSt 7 = .ok exNetworkSt ∧
    VirtualDevice.port exNetworkSt = .error "Port only for gnuradio socket (grc backend)" ∧
    VirtualDevice.port_set exNetworkSt 80
      = .error "Port only for gnuradio socket (grc backend)" := by
  obtain ⟨h₁, h₂⟩ := c1_amended_unsupported_property_access exNetworkSt 7 80
  obtain ⟨ha, hb⟩ := h₁ exNetworkDev rfl
  obtain ⟨hc, hd⟩ := h₂ (by decide)
  exact ⟨ha, hb, hc, hd⟩

/-- C9 counterexample: a grc-backend construction in spectrum mode passes no
ringbuffer flag to the constructed `SpectrumThread` adapter at all, so the flag
received is not `true`, contradicting the claim for every spectrum-mode
construction. -/
theorem c9_counterexample_grc_spectrum_passes_no_flag :
    passedRingbufferOfResult
      (VirtualDevice.construct (α := ℤ) exGrcRegistry "USRP" Mode.spectrum 1 1 1 1
        Option.none Option.none 1 false true 1234) = some Option.none ∧
    some (Option.none : Option Bool) ≠ some (some true) := by
  exact ⟨rfl, by decide⟩

/-- Ringbuffer behavior of every adapter built by `buildDev` for a
spectrum-mode construction: a native adapter has its ringbuffer flag forced
true, while a grc adapter (always the spectrum thread in spectrum mode)
receives no ringbuffer flag at all. -/
theorem buildDev_spectrum_ringbuffer {α : Type} (b : Backends) (name : String)
    (bw freq gain samp_rate : ℚ) (samples : Option (List α)) (ip : Option String)
    (rep : ℕ) (rb raw : Bool) (pn : ℕ) (dv : DevState α)
    (h : buildDev b name Mode.spectrum bw freq gain samp_rate samples ip rep rb raw pn
          = .ok dv) :
    (∀ d : NativeDev α, dv = DevState.native d → d.is_ringbuffer = true) ∧
    (∀ d : GrcDev α, dv = DevState.grc d → d.is_ringbuffer = Option.none) := by
  cases b
  · injection h with h'
    subst h'
    constructor
    · rintro d hd
      exact DevState.noConfusion hd
    · rintro d hd
      injection hd with h''
      subst h''
      rfl
  · rw [buildDev] at h
    by_cases hmem : strToLower name ∈ DEVICE_NAMES.map strToLower
    · rw [if_pos hmem] at h
      by_cases h1 : strToLower name = "hackrf"
      · rw [if_pos h1] at h
        injection h with h'
        subst h'
        refine ⟨?_, ?_⟩
        · rintro d hd
          injection hd with h''
          subst h''
          rfl
        · rintro d hd
          exact DevState.noConfusion hd
      · rw [if_neg h1] at h
        by_cases h2 : strRemoveDash (strToLower name) = "rtlsdr"
        · rw [if_pos h2] at h
          injection h with h'
          subst h'
          refine ⟨?_, ?_⟩
          · rintro d hd
            injection hd with h''
            subst h''
            rfl
          · rintro d hd
            exact DevState.noConfusion hd
        · rw [if_neg h2] at h
          by_cases h3 : strRemoveDash (strToLower name) = "rtltcp"
          · rw [if_pos h3] at h
            injection h with h'
            subst h'
            refine ⟨?_, ?_⟩
            · rintro d hd
              injection hd with h''
              subst h''
              rfl
            · rintro d hd
              exact DevState.noConfusion hd
          · rw [if_neg h3] at h
            exact Except.noConfusion h
    · rw [if_neg hmem] at h
      exact Except.noConfusion h
  · injection h with h'
    subst h'
    constructor
    · rintro d hd
      exact DevState.noConfusion hd
    · rintro d hd
      exact DevState.noConfusion hd
  · injection h with h'
    subst h'
    constructor
    · rintro d hd
      exact DevState.noConfusion hd
    · rintro d hd
      exact DevState.noConfusion hd

/-- C9 amended: for every construction in spectrum mode whose resolved backend
is the native driver, the ringbuffer flag passed to the constructed adapter is
true even when the caller supplied false; grc and network spectrum
constructions pass no ringbuffer flag to their adapters (the grc spectrum
thread's received flag is `none`, and the network plugin has no such
constructor flag, so the flag it received is `none` as well). -/
theorem c9_amended_spectrum_ringbuffer {α : Type}
    (registry : List (String × Backends)) (name : String) (bw freq gain samp_rate : ℚ)
    (samples : Option (List α)) (ip : Option String) (rep : ℕ) (rb raw : Bool) (pn : ℕ)
    (st : VirtualDevice α) (effs : List Effect)
    (hok : VirtualDevice.construct registry name Mode.spectrum bw freq gain samp_rate
            samples ip rep rb raw pn = .ok (st, effs)) :
    (∀ d : NativeDev α, st.dev = DevState.native d → d.is_ringbuffer = true) ∧
    (∀ d : GrcDev α, st.dev = DevState.grc d → d.is_ringbuffer = Option.none) ∧
    (∀ d : NetworkDev α, st.dev = DevState.network d →
      ringbufferPassed st.dev = Option.none) := by
  rw [VirtualDevice.construct] at hok
  split at hok
  · cases hbd : buildDev Backends.network name Mode.spectrum bw freq gain samp_rate samples
        ip rep rb raw pn with
    | error e =>
      rw [hbd] at hok
      exact Except.noConfusion hok
    | ok dv =>
      rw [hbd] at hok
      injection hok with h'
      injection h' with h₁ h₂
      subst h₁
      obtain ⟨hnat, hgrc⟩ := buildDev_spectrum_ringbuffer _ _ _ _ _ _ _ _ _ _ _ _ _ hbd
      exact ⟨hnat, hgrc, fun d hd => by rw [hd]; rfl⟩
  · split at hok
    · injection hok with h'
      injection h' with h₁ h₂
      subst h₁
      refine ⟨?_, ?_, ?_⟩
      · rintro d hd
        exact DevState.noConfusion hd
      · rintro d hd
        exact DevState.noConfusion hd
      · rintro d hd
        rw [hd]
        rfl
    · rename_i b hb
      cases hbd : buildDev b name Mode.spectrum bw freq gain samp_rate samples
          ip rep rb raw pn with
      | error e =>
        rw [hbd] at hok
        exact Except.noConfusion hok
      | ok dv =>
        rw [hbd] at hok
        injection hok with h'
        injection h' with h₁ h₂
        subst h₁
        obtain ⟨hnat, hgrc⟩ := buildDev_spectrum_ringbuffer _ _ _ _ _ _ _ _ _ _ _ _ _ hbd
        exact ⟨hnat, hgrc, fun d hd => by rw [hd]; rfl⟩

/-- Witness for the amended C9: a hackrf spectrum-mode construction with caller
flag false yields a native adapter whose ringbuffer flag is true, and a usrp
grc spectrum-mode construction yields an adapter that received no ringbuffer
flag. -/
theorem c9_amended_spectrum_ringbuffer_witness :
    VirtualDevice.construct (α := ℤ) exNativeRegistry "HackRF" Mode.spectrum 1 433 20 2
      Option.none Option.none 1 false true 1234 = .ok (exHackRFSt, []) ∧
    exHackRFDev.is_ringbuffer = true ∧
    VirtualDevice.construct (α := ℤ) exGrcRegistry "USRP" Mode.spectrum 1 1 1 1
      Option.none Option.none 1 false true 1234 = .ok (exUsrpSpectrumSt, []) ∧
    exUsrpSpectrumDev.is_ringbuffer = Option.none :=
  ⟨rfl,
   (c9_amended_spectrum_ringbuffer exNativeRegistry "HackRF" 1 433 20 2
      Option.none Option.none 1 false true 1234 exHackRFSt [] rfl).1 exHackRFDev rfl,
   rfl,
   (c9_amended_spectrum_ringbuffer exGrcRegistry "USRP" 1 1 1 1
      Option.none Option.none 1 false true 1234 exUsrpSpectrumSt [] rfl).2.1
     exUsrpSpectrumDev rfl⟩
